import Mathlib

/-!
Shallow embedding of `src/Skyscrapers.py`, a Streamlit dashboard over an
uploaded spreadsheet of skyscraper records.

Modelling conventions:
* a data frame is a list of `Row`s plus the list of column names (`Table`);
* numeric cells (heights, coordinates) are rationals; a null / NaN
  coordinate cell is `none` (the spec's invariant treats the height column
  as numeric, so height cells are plain rationals);
* `Row.idx` is the pandas index label given to the row by `pd.read_excel`
  (its position in the parsed file); `dropna`, filtering and sorting keep
  labels, which is what line 238's `index + 1` prints;
* one run of the script with fixed widget values (selected city, sort
  direction, slider value) is the function `runApp`, returning an
  `AppOutput` that records what each display surface shows (`none` / `[]`
  meaning the surface is not rendered).
-/

namespace Skyscrapers

/-- A row of the uploaded table.  Columns used by the script: `name`,
`location.latitude`, `location.longitude`, `location.city`, and the
detected height column. -/
structure Row where
  idx : Nat
  name : String
  lat : Option ℚ
  lon : Option ℚ
  city : String
  height : ℚ
  deriving Repr, DecidableEq

/-- The parsed spreadsheet: column names plus rows (line 40). -/
structure Table where
  cols : List String
  rows : List Row
  deriving Repr, DecidableEq

/-- Does the character list `needle` start the character list `hay`? -/
def startsWithChars : List Char → List Char → Bool
  | [], _ => true
  | _ :: _, [] => false
  | a :: as, b :: bs => a == b && startsWithChars as bs

/-- Does `needle` occur as a contiguous run inside `hay`? -/
def occursIn (needle : List Char) : List Char → Bool
  | [] => needle.isEmpty
  | c :: cs => startsWithChars needle (c :: cs) || occursIn needle cs

/-- Line 62: `'height' in col.lower()` — lowercasing character-wise (column
names are ASCII, where Python `str.lower` and `Char.toLower` agree). -/
def containsHeight (col : String) : Bool :=
  occursIn "height".toList (col.toList.map Char.toLower)

/-- Line 62: `[col for col in data.columns if 'height' in col.lower()]`. -/
def height_columns (cols : List String) : List String :=
  cols.filter containsHeight

/-- Line 59: `data.dropna(subset=['location.latitude', 'location.longitude'])`. -/
def dropnaLatLon (rows : List Row) : List Row :=
  rows.filter (fun r => r.lat.isSome && r.lon.isSome)

/-- Helper for `uniqueFirst`: keep elements not seen yet, first occurrence
order (pandas `Series.unique`). -/
def uniqueAux : List String → List String → List String
  | [], _ => []
  | c :: cs, seen => if c ∈ seen then uniqueAux cs seen else c :: uniqueAux cs (c :: seen)

/-- Line 72: `data['location.city'].unique()` — distinct values in first
occurrence order. -/
def uniqueFirst (l : List String) : List String :=
  uniqueAux l []

/-- Line 76: `data[data['location.city'] == selected_city]`. -/
def filtered_data (rows : List Row) (city : String) : List Row :=
  rows.filter (fun r => r.city == city)

/-- Comparison by the detected height column, used for `sort_values`. -/
def heightLE (a b : Row) : Prop :=
  a.height ≤ b.height

instance : DecidableRel heightLE :=
  fun a b => inferInstanceAs (Decidable (a.height ≤ b.height))

instance : IsTotal Row heightLE :=
  ⟨fun a b => le_total a.height b.height⟩

instance : IsTrans Row heightLE :=
  ⟨fun _ _ _ => le_trans⟩

/-- Line 90: `filtered_data.sort_values(by=height_column_name, ascending=ascending)`.
pandas obtains the descending order by reversing the ascending argsort
(`nargsort` computes `argsort(kind)` and reverses the indexer when
`ascending=False`), so the descending result is exactly the reversed
ascending result.  Tie order under the default `quicksort` kind is
unspecified; insertion sort realises one admissible ascending order. -/
def sort_values (rows : List Row) (ascending : Bool) : List Row :=
  if ascending then rows.insertionSort heightLE
  else (rows.insertionSort heightLE).reverse

/-- Arithmetic mean of a list of rationals (`Series.mean`). -/
def meanQ (l : List ℚ) : ℚ :=
  l.sum / (l.length : ℚ)

/-- Lines 110-117: `data.groupby('location.city')[height].mean()` — each
distinct city paired with the mean height over its rows.  (pandas orders
the group keys alphabetically; key order is irrelevant to every property
stated below, so keys are enumerated in first occurrence order.) -/
def city_group (rows : List Row) : List (String × ℚ) :=
  (uniqueFirst (rows.map Row.city)).map
    (fun c => (c, meanQ ((filtered_data rows c).map Row.height)))

/-- Line 127: `filtered_data.loc[filtered_data[height].idxmax()]` — the row
holding the maximum height, ties broken by first occurrence (pandas
`idxmax` returns the index of the first occurrence of the maximum). -/
def idxmaxRow : List Row → Option Row
  | [] => none
  | r :: rs =>
      match idxmaxRow rs with
      | none => some r
      | some t => if t.height ≤ r.height then some r else some t

/-- The three metrics of the Key Highlights table (lines 126-130). -/
structure Highlights where
  total : Nat
  tallestName : String
  tallestHeight : ℚ
  averageHeight : ℚ
  deriving Repr, DecidableEq

/-- Lines 125-130: count, first-occurrence tallest row, mean height over the
city-filtered set. -/
def keyHighlights (filtered : List Row) : Option Highlights :=
  match idxmaxRow filtered with
  | none => none
  | some t => some ⟨filtered.length, t.name, t.height, meanQ (filtered.map Row.height)⟩

/-- `Series.max` on a list of heights (only consulted on non-empty input). -/
def seriesMax : List ℚ → ℚ
  | [] => 0
  | h :: t => t.foldl max h

/-- Python `int()` on a rational: truncation toward zero (line 187's
`int(filtered_data[height].max())`). -/
def pyInt (q : ℚ) : ℤ :=
  if 0 ≤ q then ⌊q⌋ else ⌈q⌉

/-- The minimum-height slider configuration (lines 184-189). -/
structure SliderSpec where
  minVal : ℤ
  maxVal : ℤ
  defaultVal : ℤ
  deriving Repr, DecidableEq

/-- Line 192: `sorted_data[sorted_data['Height'] >= min_height]`. -/
def filtered_by_height (sorted : List Row) (m : ℤ) : List Row :=
  sorted.filter (fun r => decide ((m : ℚ) ≤ r.height))

/-- Number of rows of a given city (one entry of `value_counts`, line 249). -/
def countCity (rows : List Row) (c : String) : Nat :=
  (rows.filter (fun r => r.city == c)).length

/-- Descending-count comparison used by `value_counts`. -/
def countGE (a b : String × Nat) : Prop :=
  b.2 ≤ a.2

instance : DecidableRel countGE :=
  fun a b => inferInstanceAs (Decidable (b.2 ≤ a.2))

instance : IsTotal (String × Nat) countGE :=
  ⟨fun a b => le_total b.2 a.2⟩

instance : IsTrans (String × Nat) countGE :=
  ⟨fun _ _ _ hab hbc => le_trans hbc hab⟩

/-- Line 249: `data['location.city'].value_counts()` — per-city row counts,
sorted by count descending (tie order under pandas is unspecified;
insertion sort realises one admissible order). -/
def value_counts (rows : List Row) : List (String × Nat) :=
  ((uniqueFirst (rows.map Row.city)).map (fun c => (c, countCity rows c))).insertionSort countGE

/-- Line 253: `city_skyscraper_count.head(10)` — the pie chart's data. -/
def top_cities (rows : List Row) : List (String × Nat) :=
  (value_counts rows).take 10

/-- Lines 238-239: the Sample Skyscraper Data lines — for each of the first
five rows, the printed `(index + 1, Name, Height)` triple. -/
def sampleLines (fbh : List Row) : List (Nat × String × ℚ) :=
  (fbh.take 5).map (fun r => (r.idx + 1, r.name, r.height))

/-- Line 59 applied to the parsed table. -/
def appData (t : Table) : List Row :=
  dropnaLatLon t.rows

/-- Lines 62-69: whether a height column was detected. -/
def appHeightDetected (t : Table) : Bool :=
  !(height_columns t.cols).isEmpty

/-- Line 76 applied to the dropped table. -/
def appFiltered (t : Table) (city : String) : List Row :=
  filtered_data (appData t) city

/-- Lines 89-107: `sorted_data` — the sorted filtered set when a height
column exists, the filtered set unchanged otherwise. -/
def appSorted (t : Table) (city : String) (ascending : Bool) : List Row :=
  if appHeightDetected t then sort_values (appFiltered t city) ascending
  else appFiltered t city

/-- Guard of lines 125 and 181: `not filtered_data.empty and height_column_name`. -/
def appActive (t : Table) (city : String) : Bool :=
  !(appFiltered t city).isEmpty && appHeightDetected t

/-- Line 192 applied to `sorted_data`. -/
def appFbh (t : Table) (city : String) (ascending : Bool) (m : ℤ) : List Row :=
  filtered_by_height (appSorted t city ascending) m

/-- What one run of the script renders.  A `none` / `[]` field means that
surface is not rendered on this run.  Row-list fields hold the underlying
rows of the rendered widget. -/
structure AppOutput where
  errorMsg : Option String
  summary : Option (Nat × Nat)
  heightColWarning : Bool
  sortedRows : Option (List Row)
  sortSkipWarning : Bool
  cityGroup : Option (List (String × ℚ))
  highlights : Option Highlights
  noDataWarning : Bool
  slider : Option SliderSpec
  mapRows : Option (List Row)
  emptyFilterWarning : Bool
  expanderRows : Option (List Row)
  histogramHeights : Option (List ℚ)
  sampleOut : List (Nat × String × ℚ)
  pieChart : Option (List (String × Nat))
  deriving Repr, DecidableEq

/-- Lines 43-45: on parse failure `st.error` is shown and `st.stop()` halts
the script, so nothing further renders — including the trailing pie chart
of lines 244-267. -/
def haltedOutput (e : String) : AppOutput where
  errorMsg := some e
  summary := none
  heightColWarning := false
  sortedRows := none
  sortSkipWarning := false
  cityGroup := none
  highlights := none
  noDataWarning := false
  slider := none
  mapRows := none
  emptyFilterWarning := false
  expanderRows := none
  histogramHeights := none
  sampleOut := []
  pieChart := none

/-- One top-to-bottom run of the script (lines 36-269) for a given parse
result and widget state: selected city, sort direction, slider value. -/
def runApp (parse : Except String Table) (city : String) (ascending : Bool)
    (m : ℤ) : AppOutput :=
  match parse with
  | .error e => haltedOutput e
  | .ok t =>
      { errorMsg := none
        summary := some (t.rows.length, t.cols.length)
        heightColWarning := !appHeightDetected t
        sortedRows := if appHeightDetected t then some (appSorted t city ascending) else none
        sortSkipWarning := !appHeightDetected t
        cityGroup := if appHeightDetected t then some (city_group (appData t)) else none
        highlights := if appActive t city then keyHighlights (appFiltered t city) else none
        noDataWarning := !appActive t city
        slider :=
          if appActive t city then
            some ⟨0, pyInt (seriesMax ((appFiltered t city).map Row.height)), 100⟩
          else none
        mapRows :=
          if appActive t city && !(appFbh t city ascending m).isEmpty then
            some (appFbh t city ascending m)
          else none
        emptyFilterWarning := appActive t city && (appFbh t city ascending m).isEmpty
        expanderRows :=
          if appActive t city && !(appFbh t city ascending m).isEmpty then
            some (appFbh t city ascending m)
          else none
        histogramHeights :=
          if appActive t city && !(appFbh t city ascending m).isEmpty then
            some ((appFbh t city ascending m).map Row.height)
          else none
        sampleOut := if appActive t city then sampleLines (appFbh t city ascending m) else []
        pieChart :=
          if !(appData t).isEmpty && t.cols.contains "location.city" then
            some (top_cities (appData t))
          else none }

/-- Row A of the worked example in spec section 8. -/
def exRowA : Row :=
  ⟨0, "A", some 1, some 2, "NYC", 300⟩

/-- Row B of the worked example in spec section 8. -/
def exRowB : Row :=
  ⟨1, "B", some 3, some 4, "NYC", 100⟩

/-- Row C of the worked example in spec section 8. -/
def exRowC : Row :=
  ⟨2, "C", some 5, some 6, "LA", 200⟩

/-- The worked example table of spec section 8. -/
def exTable : Table :=
  ⟨["name", "location.latitude", "location.longitude", "location.city", "height"],
   [exRowA, exRowB, exRowC]⟩

/-- A table none of whose column names contains "height". -/
def noHeightTable : Table :=
  ⟨["name", "location.latitude", "location.longitude", "location.city"],
   [exRowA, exRowB, exRowC]⟩

/-- The rational 100.5 = 201/2, written as an explicit fraction. -/
def halfHeight : ℚ :=
  ⟨201, 2, by decide, by decide⟩

/-- A table whose maximum height, 100.5, is not an integer. -/
def halfTable : Table :=
  ⟨["name", "location.latitude", "location.longitude", "location.city", "height"],
   [⟨0, "H", some 1, some 2, "NYC", halfHeight⟩]⟩

/-! Basic membership lemmas about the pipeline stages. -/

theorem mem_dropnaLatLon {rows : List Row} {r : Row} :
    r ∈ dropnaLatLon rows ↔ r ∈ rows ∧ r.lat.isSome ∧ r.lon.isSome := by
  simp [dropnaLatLon, List.mem_filter]

theorem mem_filtered_data {rows : List Row} {c : String} {r : Row} :
    r ∈ filtered_data rows c ↔ r ∈ rows ∧ r.city = c := by
  simp [filtered_data, List.mem_filter]

theorem mem_sort_values {rows : List Row} {b : Bool} {r : Row} :
    r ∈ sort_values rows b ↔ r ∈ rows := by
  cases b <;> simp [sort_values, List.mem_insertionSort]

theorem mem_filtered_by_height {l : List Row} {m : ℤ} {r : Row} :
    r ∈ filtered_by_height l m ↔ r ∈ l ∧ (m : ℚ) ≤ r.height := by
  simp [filtered_by_height, List.mem_filter]

theorem sort_values_asc_perm (rows : List Row) :
    (sort_values rows true).Perm rows := by
  simpa [sort_values] using List.perm_insertionSort heightLE rows

theorem sort_values_asc_sorted (rows : List Row) :
    (sort_values rows true).Sorted heightLE := by
  simpa [sort_values] using List.sorted_insertionSort heightLE rows

/-- C3: for a fixed city-filtered set, sorting by height descending yields
exactly the reverse of the ascending order (pandas obtains the descending
order by reversing the ascending argsort, whatever its tie order). -/
theorem sort_desc_eq_reverse_sort_asc (rows : List Row) :
    sort_values rows false = (sort_values rows true).reverse := by
  simp [sort_values]

/-- C6: when the parse of the uploaded file fails, the run surfaces the
error message and displays nothing else: no summary, no tables, no
highlights, no slider, no map, no histogram, no sample lines, and no pie
chart (the script is halted before the trailing pie-chart section). -/
theorem parse_failure_halts (e : String) (city : String) (asc : Bool) (m : ℤ) :
    (runApp (.error e) city asc m).errorMsg = some e ∧
    (runApp (.error e) city asc m).summary = none ∧
    (runApp (.error e) city asc m).sortedRows = none ∧
    (runApp (.error e) city asc m).cityGroup = none ∧
    (runApp (.error e) city asc m).highlights = none ∧
    (runApp (.error e) city asc m).slider = none ∧
    (runApp (.error e) city asc m).mapRows = none ∧
    (runApp (.error e) city asc m).expanderRows = none ∧
    (runApp (.error e) city asc m).histogramHeights = none ∧
    (runApp (.error e) city asc m).sampleOut = [] ∧
    (runApp (.error e) city asc m).pieChart = none :=
  ⟨rfl, rfl, rfl, rfl, rfl, rfl, rfl, rfl, rfl, rfl, rfl⟩

/-- C9: the filtered-by-height set holds exactly the rows of the sorted set
whose height is at least the selected minimum `m`, and it is a sublist of
the sorted set, so the relative order of the kept rows is unchanged. -/
theorem filtered_by_height_spec (sorted : List Row) (m : ℤ) :
    (∀ r : Row, r ∈ filtered_by_height sorted m ↔ r ∈ sorted ∧ (m : ℚ) ≤ r.height) ∧
    (filtered_by_height sorted m).Sublist sorted :=
  ⟨fun _ => mem_filtered_by_height, List.filter_sublist sorted⟩

/-- C10: the Sample Skyscraper Data section prints min(5, n) lines; for
`i < 5`, line `i` is exactly row `i` of the filtered-by-height set in its
current order, printed as its index label plus one, its name and its
height. -/
theorem sampleLines_spec (fbh : List Row) :
    (sampleLines fbh).length = min 5 fbh.length ∧
    ∀ i : Nat, (sampleLines fbh)[i]? =
      if i < 5 then (fbh[i]?).map (fun r => (r.idx + 1, r.name, r.height)) else none := by
  constructor
  · simp [sampleLines]
  · intro i
    simp [sampleLines, List.getElem?_take]

theorem mem_uniqueAux (a : String) (l : List String) :
    ∀ seen : List String, a ∈ uniqueAux l seen ↔ a ∈ l ∧ a ∉ seen := by
  induction l with
  | nil => intro seen; simp [uniqueAux]
  | cons c cs ih =>
    intro seen
    by_cases hc : c ∈ seen
    · rw [uniqueAux, if_pos hc, ih]
      constructor
      · rintro ⟨h1, h2⟩
        exact ⟨List.mem_cons_of_mem _ h1, h2⟩
      · rintro ⟨h1, h2⟩
        rcases List.mem_cons.mp h1 with rfl | h1
        · exact absurd hc h2
        · exact ⟨h1, h2⟩
    · rw [uniqueAux, if_neg hc]
      constructor
      · intro h
        rcases List.mem_cons.mp h with rfl | h
        · exact ⟨List.mem_cons_self _ _, hc⟩
        · rcases (ih _).mp h with ⟨h1, h2⟩
          exact ⟨List.mem_cons_of_mem _ h1, fun hs => h2 (List.mem_cons_of_mem _ hs)⟩
      · rintro ⟨h1, h2⟩
        by_cases hac : a = c
        · subst hac; exact List.mem_cons_self _ _
        · rcases List.mem_cons.mp h1 with rfl | h1
          · exact absurd rfl hac
          · refine List.mem_cons_of_mem _ ((ih _).mpr ⟨h1, ?_⟩)
            intro hs
            rcases List.mem_cons.mp hs with rfl | hs
            · exact hac rfl
            · exact h2 hs

theorem mem_uniqueFirst {a : String} {l : List String} :
    a ∈ uniqueFirst l ↔ a ∈ l := by
  rw [uniqueFirst, mem_uniqueAux]
  simp

theorem filtered_heights_length_ne_zero {rows : List Row} {c : String}
    (hex : ∃ r ∈ rows, r.city = c) :
    (((filtered_data rows c).map Row.height).length : ℚ) ≠ 0 := by
  obtain ⟨r, hr, hc⟩ := hex
  have hmem : r ∈ filtered_data rows c := mem_filtered_data.mpr ⟨hr, hc⟩
  have h1 : 0 < (filtered_data rows c).length :=
    List.length_pos.mpr (List.ne_nil_of_mem hmem)
  simp only [List.length_map, ne_eq, Nat.cast_eq_zero]
  omega

theorem mem_city_group {rows : List Row} {c : String} {q : ℚ} :
    (c, q) ∈ city_group rows ↔
      (∃ r ∈ rows, r.city = c) ∧
        q * (((filtered_data rows c).map Row.height).length : ℚ) =
          ((filtered_data rows c).map Row.height).sum := by
  unfold city_group
  rw [List.mem_map]
  constructor
  · rintro ⟨c', hc', heq⟩
    rw [Prod.mk.injEq] at heq
    obtain ⟨rfl, hq⟩ := heq
    have hcmem : c' ∈ rows.map Row.city := mem_uniqueFirst.mp hc'
    rw [List.mem_map] at hcmem
    obtain ⟨r, hr, hrc⟩ := hcmem
    refine ⟨⟨r, hr, hrc⟩, ?_⟩
    rw [← hq, meanQ]
    exact div_mul_cancel₀ _ (filtered_heights_length_ne_zero ⟨r, hr, hrc⟩)
  · rintro ⟨hex, hq⟩
    obtain ⟨r, hr, hrc⟩ := hex
    refine ⟨c, mem_uniqueFirst.mpr (List.mem_map.mpr ⟨r, hr, hrc⟩), ?_⟩
    rw [Prod.mk.injEq]
    refine ⟨rfl, ?_⟩
    rw [meanQ, div_eq_iff (filtered_heights_length_ne_zero ⟨r, hr, hrc⟩)]
    exact hq.symm

/-- C2: with a height column detected, the displayed per-city table is the
group-by of the full null-dropped table, and an entry `(c, q)` occurs in it
exactly when `c` is a city of that table and `q` is the arithmetic mean
(`q` times the count equals the sum) of the heights of exactly the rows of
city `c`. -/
theorem city_group_displayed_mean (t : Table) (city : String) (asc : Bool) (m : ℤ)
    (c : String) (q : ℚ) (hH : appHeightDetected t = true) :
    (runApp (.ok t) city asc m).cityGroup = some (city_group (appData t)) ∧
    ((c, q) ∈ city_group (appData t) ↔
      (∃ r ∈ appData t, r.city = c) ∧
        q * (((filtered_data (appData t) c).map Row.height).length : ℚ) =
          ((filtered_data (appData t) c).map Row.height).sum) :=
  ⟨by simp [runApp, hH], mem_city_group⟩

/-- Witness for C2 at the spec's worked example: the NYC mean is 200. -/
theorem city_group_displayed_mean_witness :
    (runApp (.ok exTable) "NYC" true 100).cityGroup = some (city_group (appData exTable)) ∧
    (("NYC", (200 : ℚ)) ∈ city_group (appData exTable) ↔
      (∃ r ∈ appData exTable, r.city = "NYC") ∧
        (200 : ℚ) * (((filtered_data (appData exTable) "NYC").map Row.height).length : ℚ) =
          ((filtered_data (appData exTable) "NYC").map Row.height).sum) :=
  city_group_displayed_mean exTable "NYC" true 100 "NYC" 200 (by decide)

theorem idxmaxRow_spec : ∀ rows : List Row, rows ≠ [] →
    ∃ t l1 l2, idxmaxRow rows = some t ∧ rows = l1 ++ t :: l2 ∧
      (∀ r ∈ rows, r.height ≤ t.height) ∧ (∀ r ∈ l1, r.height < t.height) := by
  intro rows
  induction rows with
  | nil => intro h; exact absurd rfl h
  | cons r rs ih =>
    intro _
    by_cases h : rs = []
    · subst h
      exact ⟨r, [], [], rfl, rfl, by simp, by simp⟩
    · obtain ⟨t, l1, l2, hidx, hsplit, hmax, hlt⟩ := ih h
      by_cases hcmp : t.height ≤ r.height
      · refine ⟨r, [], rs, ?_, rfl, ?_, by simp⟩
        · simp [idxmaxRow, hidx, hcmp]
        · intro x hx
          rcases List.mem_cons.mp hx with rfl | hx
          · exact le_refl _
          · exact le_trans (hmax x hx) hcmp
      · have hrt : r.height < t.height := not_le.mp hcmp
        refine ⟨t, r :: l1, l2, ?_, by rw [hsplit]; rfl, ?_, ?_⟩
        · simp [idxmaxRow, hidx, hcmp]
        · intro x hx
          rcases List.mem_cons.mp hx with rfl | hx
          · exact le_of_lt hrt
          · exact hmax x hx
        · intro x hx
          rcases List.mem_cons.mp hx with rfl | hx
          · exact hrt
          · exact hlt x hx

theorem appActive_true {t : Table} {city : String}
    (h1 : appFiltered t city ≠ []) (h2 : appHeightDetected t = true) :
    appActive t city = true := by
  simp [appActive, h2, h1]

/-- C4: on a non-empty city-filtered set with a detected height column, the
Key Highlights block shows the row count of that set, the name and height
of the first row attaining the maximum height (every row's height is at
most the shown height, and every earlier row is strictly shorter), and the
arithmetic mean of the heights of that set. -/
theorem key_highlights_spec (t : Table) (city : String) (asc : Bool) (m : ℤ)
    (h1 : appFiltered t city ≠ []) (h2 : appHeightDetected t = true) :
    ∃ tall l1 l2 avg,
      (runApp (.ok t) city asc m).highlights =
        some ⟨(appFiltered t city).length, tall.name, tall.height, avg⟩ ∧
      avg * (((appFiltered t city).map Row.height).length : ℚ) =
        ((appFiltered t city).map Row.height).sum ∧
      appFiltered t city = l1 ++ tall :: l2 ∧
      (∀ r ∈ appFiltered t city, r.height ≤ tall.height) ∧
      (∀ r ∈ l1, r.height < tall.height) := by
  obtain ⟨tall, l1, l2, hidx, hsplit, hmax, hlt⟩ := idxmaxRow_spec (appFiltered t city) h1
  refine ⟨tall, l1, l2, meanQ ((appFiltered t city).map Row.height), ?_, ?_, hsplit, hmax, hlt⟩
  · simp [runApp, appActive_true h1 h2, keyHighlights, hidx]
  · rw [meanQ]
    refine div_mul_cancel₀ _ ?_
    simp only [List.length_map, ne_eq, Nat.cast_eq_zero]
    have := List.length_pos.mpr h1
    omega

/-- Witness for C4 at the spec's worked example, city NYC. -/
theorem key_highlights_spec_witness :
    ∃ tall l1 l2 avg,
      (runApp (.ok exTable) "NYC" true 100).highlights =
        some ⟨(appFiltered exTable "NYC").length, tall.name, tall.height, avg⟩ ∧
      avg * (((appFiltered exTable "NYC").map Row.height).length : ℚ) =
        ((appFiltered exTable "NYC").map Row.height).sum ∧
      appFiltered exTable "NYC" = l1 ++ tall :: l2 ∧
      (∀ r ∈ appFiltered exTable "NYC", r.height ≤ tall.height) ∧
      (∀ r ∈ l1, r.height < tall.height) :=
  key_highlights_spec exTable "NYC" true 100 (by decide) (by decide)

/-- C5: when no column name contains "height" (case-insensitive), the run
still succeeds: it surfaces the sidebar error and the sort-skip warning and
skips the sorted table, the per-city average table, the highlights, the
slider, the map, the histogram and the sample lines, with no load error. -/
theorem no_height_column_skips (t : Table) (city : String) (asc : Bool) (m : ℤ)
    (h : height_columns t.cols = []) :
    (runApp (.ok t) city asc m).errorMsg = none ∧
    (runApp (.ok t) city asc m).heightColWarning = true ∧
    (runApp (.ok t) city asc m).sortSkipWarning = true ∧
    (runApp (.ok t) city asc m).sortedRows = none ∧
    (runApp (.ok t) city asc m).cityGroup = none ∧
    (runApp (.ok t) city asc m).highlights = none ∧
    (runApp (.ok t) city asc m).slider = none ∧
    (runApp (.ok t) city asc m).mapRows = none ∧
    (runApp (.ok t) city asc m).histogramHeights = none ∧
    (runApp (.ok t) city asc m).sampleOut = [] := by
  have hH : appHeightDetected t = false := by
    simp [appHeightDetected, h]
  have hact : appActive t city = false := by
    simp [appActive, hH]
  simp [runApp, hH, hact]

/-- Witness for C5 on a table without a height column. -/
theorem no_height_column_skips_witness :
    (runApp (.ok noHeightTable) "NYC" true 100).errorMsg = none ∧
    (runApp (.ok noHeightTable) "NYC" true 100).heightColWarning = true ∧
    (runApp (.ok noHeightTable) "NYC" true 100).sortSkipWarning = true ∧
    (runApp (.ok noHeightTable) "NYC" true 100).sortedRows = none ∧
    (runApp (.ok noHeightTable) "NYC" true 100).cityGroup = none ∧
    (runApp (.ok noHeightTable) "NYC" true 100).highlights = none ∧
    (runApp (.ok noHeightTable) "NYC" true 100).slider = none ∧
    (runApp (.ok noHeightTable) "NYC" true 100).mapRows = none ∧
    (runApp (.ok noHeightTable) "NYC" true 100).histogramHeights = none ∧
    (runApp (.ok noHeightTable) "NYC" true 100).sampleOut = [] :=
  no_height_column_skips noHeightTable "NYC" true 100 (by decide)

/-- C8 as stated fails: the slider maximum is the Python `int()` truncation
of the maximum observed height, not the maximum observed height itself.
On `halfTable` the maximum height of the filtered set is 100.5 while the
slider maximum is 100. -/
theorem slider_max_counterexample :
    (runApp (.ok halfTable) "NYC" true 100).slider = some ⟨0, 100, 100⟩ ∧
    seriesMax ((appFiltered halfTable "NYC").map Row.height) = halfHeight ∧
    ((100 : ℤ) : ℚ) ≠ halfHeight := by
  refine ⟨by decide, by decide, by decide⟩

/-- C8 amended: on a non-empty city-filtered set with a detected height
column, the minimum-height slider ranges from 0 to the integer truncation
(Python `int()`, toward zero) of the maximum observed height of that set,
and defaults to 100. -/
theorem slider_spec (t : Table) (city : String) (asc : Bool) (m : ℤ)
    (h1 : appFiltered t city ≠ []) (h2 : appHeightDetected t = true) :
    (runApp (.ok t) city asc m).slider =
      some ⟨0, pyInt (seriesMax ((appFiltered t city).map Row.height)), 100⟩ := by
  simp [runApp, appActive_true h1 h2]

/-- Witness for the amended C8 on the worked example. -/
theorem slider_spec_witness :
    (runApp (.ok exTable) "NYC" true 100).slider =
      some ⟨0, pyInt (seriesMax ((appFiltered exTable "NYC").map Row.height)), 100⟩ :=
  slider_spec exTable "NYC" true 100 (by decide) (by decide)

theorem value_counts_sorted (rows : List Row) :
    (value_counts rows).Sorted countGE :=
  List.sorted_insertionSort countGE _

theorem mem_value_counts {rows : List Row} {p : String × Nat} :
    p ∈ value_counts rows ↔ (∃ r ∈ rows, r.city = p.1) ∧ p.2 = countCity rows p.1 := by
  rw [value_counts, List.mem_insertionSort, List.mem_map]
  constructor
  · rintro ⟨c, hc, rfl⟩
    have hm : c ∈ rows.map Row.city := mem_uniqueFirst.mp hc
    rw [List.mem_map] at hm
    obtain ⟨r, hr, hrc⟩ := hm
    exact ⟨⟨r, hr, hrc⟩, rfl⟩
  · rintro ⟨⟨r, hr, hrc⟩, hp⟩
    obtain ⟨c, k⟩ := p
    refine ⟨c, mem_uniqueFirst.mpr (List.mem_map.mpr ⟨r, hr, hrc⟩), ?_⟩
    simp only at hp
    rw [hp]

theorem top_cities_sorted (rows : List Row) :
    (top_cities rows).Sorted countGE :=
  List.Pairwise.sublist (List.take_sublist 10 _) (value_counts_sorted rows)

theorem top_cities_boundary {rows : List Row} {c : String}
    (hc : ∃ r ∈ rows, r.city = c) (hout : ∀ p ∈ top_cities rows, p.1 ≠ c) :
    ∀ p ∈ top_cities rows, countCity rows c ≤ p.2 := by
  intro p hp
  have hcv : (c, countCity rows c) ∈ value_counts rows := mem_value_counts.mpr ⟨hc, rfl⟩
  have hsplit : value_counts rows = top_cities rows ++ (value_counts rows).drop 10 :=
    (List.take_append_drop 10 _).symm
  have hpair : (value_counts rows).Pairwise countGE := value_counts_sorted rows
  rw [hsplit] at hpair hcv
  rcases List.mem_append.mp hcv with hin | hdrop
  · exact absurd rfl (hout _ hin)
  · exact (List.pairwise_append.mp hpair).2.2 p hp (c, countCity rows c) hdrop

/-- C7: on a non-empty (after the null drop) table whose columns include
`location.city`, the pie chart shows the first 10 entries of the per-city
row counts of the full table sorted by count descending: every shown pair
is a city of the table with its exact row count, at most 10 (and, when at
least 10 cities exist, exactly 10) pairs are shown, counts are descending,
and every city left out has a count at most every shown count. -/
theorem top_cities_spec (t : Table) (city : String) (asc : Bool) (m : ℤ)
    (h1 : appData t ≠ []) (h2 : "location.city" ∈ t.cols) :
    (runApp (.ok t) city asc m).pieChart = some (top_cities (appData t)) ∧
    (top_cities (appData t)).length = min 10 (uniqueFirst ((appData t).map Row.city)).length ∧
    (∀ p ∈ top_cities (appData t),
      (∃ r ∈ appData t, r.city = p.1) ∧ p.2 = countCity (appData t) p.1) ∧
    (top_cities (appData t)).Sorted countGE ∧
    (∀ c, (∃ r ∈ appData t, r.city = c) → (∀ p ∈ top_cities (appData t), p.1 ≠ c) →
      ∀ p ∈ top_cities (appData t), countCity (appData t) c ≤ p.2) := by
  refine ⟨?_, ?_, ?_, top_cities_sorted _, fun c hc hout => top_cities_boundary hc hout⟩
  · simp [runApp, List.isEmpty_iff, h1, h2]
  · rw [top_cities, List.length_take, value_counts, List.length_insertionSort, List.length_map]
  · exact fun p hp => mem_value_counts.mp (List.mem_of_mem_take hp)

/-- Witness for C7 on the worked example table. -/
theorem top_cities_spec_witness :
    (runApp (.ok exTable) "NYC" true 100).pieChart = some (top_cities (appData exTable)) ∧
    (top_cities (appData exTable)).length =
      min 10 (uniqueFirst ((appData exTable).map Row.city)).length ∧
    (∀ p ∈ top_cities (appData exTable),
      (∃ r ∈ appData exTable, r.city = p.1) ∧ p.2 = countCity (appData exTable) p.1) ∧
    (top_cities (appData exTable)).Sorted countGE ∧
    (∀ c, (∃ r ∈ appData exTable, r.city = c) →
      (∀ p ∈ top_cities (appData exTable), p.1 ≠ c) →
      ∀ p ∈ top_cities (appData exTable), countCity (appData exTable) c ≤ p.2) :=
  top_cities_spec exTable "NYC" true 100 (by decide) (by decide)

theorem coords_of_mem_dropna {rows : List Row} {r : Row} (h : r ∈ dropnaLatLon rows) :
    r.lat.isSome ∧ r.lon.isSome :=
  (mem_dropnaLatLon.mp h).2

theorem idxmaxRow_mem {rows : List Row} {tall : Row} (h : idxmaxRow rows = some tall) :
    tall ∈ rows := by
  have hne : rows ≠ [] := by
    intro he
    subst he
    simp [idxmaxRow] at h
  obtain ⟨t2, l1, l2, hidx, hsplit, _, _⟩ := idxmaxRow_spec rows hne
  rw [h] at hidx
  obtain rfl : tall = t2 := by injection hidx
  rw [hsplit]
  exact List.mem_append.mpr (Or.inr (List.mem_cons_self _ _))

theorem coords_of_mem_appSorted {t : Table} {city : String} {asc : Bool} {r : Row}
    (h : r ∈ appSorted t city asc) : r.lat.isSome ∧ r.lon.isSome := by
  have hf : r ∈ appFiltered t city := by
    unfold appSorted at h
    split at h
    · exact mem_sort_values.mp h
    · exact h
  exact coords_of_mem_dropna (mem_filtered_data.mp hf).1

theorem coords_of_mem_appFbh {t : Table} {city : String} {asc : Bool} {m : ℤ} {r : Row}
    (h : r ∈ appFbh t city asc m) : r.lat.isSome ∧ r.lon.isSome :=
  coords_of_mem_appSorted (mem_filtered_by_height.mp h).1

/-- C1: every row underlying any rendered widget of a successful run — the
sorted table, the map, the expander — has non-null latitude and longitude;
the Key Highlights block, when rendered, is computed from the city filter
of the null-dropped table, and the tallest row it names is a row of the
null-dropped table with non-null coordinates; and the per-city table, the
pie chart, the histogram and the sample lines are computed from the
null-dropped table only. -/
theorem no_null_coordinates_displayed (t : Table) (city : String) (asc : Bool) (m : ℤ) :
    (∀ r ∈ ((runApp (.ok t) city asc m).sortedRows).getD [], r.lat.isSome ∧ r.lon.isSome) ∧
    (∀ r ∈ ((runApp (.ok t) city asc m).mapRows).getD [], r.lat.isSome ∧ r.lon.isSome) ∧
    (∀ r ∈ ((runApp (.ok t) city asc m).expanderRows).getD [], r.lat.isSome ∧ r.lon.isSome) ∧
    ((runApp (.ok t) city asc m).highlights = none ∨
      (runApp (.ok t) city asc m).highlights =
        keyHighlights (filtered_data (dropnaLatLon t.rows) city)) ∧
    (∀ hl : Highlights, (runApp (.ok t) city asc m).highlights = some hl →
      ∃ r ∈ dropnaLatLon t.rows, r.lat.isSome ∧ r.lon.isSome ∧
        hl.tallestName = r.name ∧ hl.tallestHeight = r.height) ∧
    ((runApp (.ok t) city asc m).cityGroup = none ∨
      (runApp (.ok t) city asc m).cityGroup = some (city_group (dropnaLatLon t.rows))) ∧
    ((runApp (.ok t) city asc m).pieChart = none ∨
      (runApp (.ok t) city asc m).pieChart = some (top_cities (dropnaLatLon t.rows))) ∧
    (∀ p ∈ (runApp (.ok t) city asc m).sampleOut,
      ∃ r : Row, r.lat.isSome ∧ r.lon.isSome ∧ p = (r.idx + 1, r.name, r.height)) ∧
    ((runApp (.ok t) city asc m).histogramHeights = none ∨
      ∃ l : List Row, (∀ r ∈ l, r.lat.isSome ∧ r.lon.isSome) ∧
        (runApp (.ok t) city asc m).histogramHeights = some (l.map Row.height)) := by
  refine ⟨?_, ?_, ?_, ?_, ?_, ?_, ?_, ?_, ?_⟩
  · by_cases hH : appHeightDetected t
    · simp only [runApp, hH, if_true]
      exact fun r hr => coords_of_mem_appSorted hr
    · simp [runApp, hH]
  · by_cases hM : appActive t city && !(appFbh t city asc m).isEmpty
    · simp only [runApp, hM, if_true]
      exact fun r hr => coords_of_mem_appFbh hr
    · simp [runApp, hM]
  · by_cases hM : appActive t city && !(appFbh t city asc m).isEmpty
    · simp only [runApp, hM, if_true]
      exact fun r hr => coords_of_mem_appFbh hr
    · simp [runApp, hM]
  · by_cases hA : appActive t city
    · right
      simp [runApp, hA, appFiltered, appData]
    · left
      simp [runApp, hA]
  · intro hl hhl
    by_cases hA : appActive t city
    · have hkey : keyHighlights (appFiltered t city) = some hl := by
        rw [← hhl]
        simp [runApp, hA]
      cases hidx : idxmaxRow (appFiltered t city) with
      | none => simp [keyHighlights, hidx] at hkey
      | some tall =>
        simp [keyHighlights, hidx] at hkey
        have hmem : tall ∈ filtered_data (dropnaLatLon t.rows) city :=
          idxmaxRow_mem hidx
        have hd : tall ∈ dropnaLatLon t.rows := (mem_filtered_data.mp hmem).1
        obtain ⟨h1, h2⟩ := coords_of_mem_dropna hd
        exact ⟨tall, hd, h1, h2, by rw [← hkey], by rw [← hkey]⟩
    · simp [runApp, hA] at hhl
  · by_cases hH : appHeightDetected t
    · right
      simp [runApp, hH, appData]
    · left
      simp [runApp, hH]
  · by_cases hd : dropnaLatLon t.rows = []
    · left
      simp [runApp, appData, hd]
    · by_cases hc : "location.city" ∈ t.cols
      · right
        simp [runApp, appData, hd, hc]
      · left
        simp [runApp, appData, hd, hc]
  · by_cases hA : appActive t city
    · simp only [runApp, hA, if_true]
      intro p hp
      rw [sampleLines, List.mem_map] at hp
      obtain ⟨r, hr, rfl⟩ := hp
      have hrf : r ∈ appFbh t city asc m := List.mem_of_mem_take hr
      obtain ⟨h1, h2⟩ := coords_of_mem_appFbh hrf
      exact ⟨r, h1, h2, rfl⟩
    · simp [runApp, hA]
  · by_cases hM : appActive t city && !(appFbh t city asc m).isEmpty
    · right
      refine ⟨appFbh t city asc m, fun r hr => coords_of_mem_appFbh hr, ?_⟩
      simp [runApp, hM]
    · left
      simp [runApp, hM]

/-- Witness for C1: row B appears in the sorted table of the worked example
and indeed has non-null coordinates. -/
theorem no_null_coordinates_displayed_witness :
    exRowB.lat.isSome ∧ exRowB.lon.isSome :=
  (no_null_coordinates_displayed exTable "NYC" true 100).1 exRowB (by decide)

end Skyscrapers
